import Mathlib

/-!
Verification of the layer correlation/diff engine and data-source rewriting
helpers of the arcpyext repository, against its natural-language specification.

The Python modules `src/arcpyext/mapping/_mapping3.py` and
`src/arcpyext/mp/_mp.py` are shallowly embedded below.  Python dictionaries
are embedded as ordered key/value lists (Python 3.7+ dicts preserve insertion
order), Python exceptions as an `Except` error type, and the mutable
accumulator state of the comparison loops as explicitly threaded state.
Where the source can raise and the surrounding `try/except/finally` returns a
best-effort result, the embedded functions carry the state at the raise point in
the error so that the `finally` semantics can be reproduced exactly.
-/

/-- Kinds of Python exceptions that the embedded code can raise. -/
inductive PyErr where
  | typeError
  | indexError
  | valueError
  | unboundLocalError
  | attributeError
deriving DecidableEq, Repr

/-- One element of a layer's `fields` list, as produced by
`_get_layer_details`: `{"index": int, "name": str, "visible": bool}`. -/
structure FieldInfo where
  index : Int
  name : String
  visible : Bool
deriving DecidableEq, Repr

/-- A Python value stored under a key of a layer-detail record. -/
inductive LVal where
  | none
  | int (n : Int)
  | str (s : String)
  | bool (b : Bool)
  | fields (fs : List FieldInfo)
deriving DecidableEq, Repr

/-- Python `==` on layer-record values.  Mirrors CPython semantics on the
embedded value types: `None == None`, numeric comparison identifies `bool`
with `int` (`True == 1`), lists compare elementwise, and values of other
differing types compare unequal. -/
def lvalEq : LVal → LVal → Bool
  | LVal.none, LVal.none => true
  | LVal.int m, LVal.int n => m == n
  | LVal.str s, LVal.str t => s == t
  | LVal.bool x, LVal.bool y => x == y
  | LVal.bool x, LVal.int n => (if x then (1 : Int) else 0) == n
  | LVal.int n, LVal.bool x => n == (if x then (1 : Int) else 0)
  | LVal.fields f, LVal.fields g => f == g
  | _, _ => false

/-- A layer (or table-view) detail record: a Python dict, embedded as an
ordered association list. -/
abbrev LayerRecord := List (String × LVal)

/-- Python `d[k]` / `k in d` on a record: first binding of the key. -/
def dictGet (r : LayerRecord) (k : String) : Option LVal :=
  match r with
  | [] => Option.none
  | (k2, v) :: rest => if k2 == k then some v else dictGet rest k

/-- Layer change reason codes, as defined identically inside `_layer_diff`
in both source files. -/
def layer_id_changed : Nat := 401

def layer_name_changed : Nat := 402

def layer_datasource_changed : Nat := 403

def layer_visibility_changed : Nat := 404

def layer_fields_changed : Nat := 405

def layer_definition_query_changed : Nat := 406

/-- A `{"type": ..., "was": ..., "now": ...}` dictionary appended to the diff
list; `Option.none` in `was`/`now` embeds Python `None`. -/
structure DiffEntry where
  type : Nat
  was : Option LVal
  now : Option LVal
deriving DecidableEq, Repr

/-- One element of the `tests` list of `_layer_diff`: a property name, its
change code, and whether the `"array": True` flag is present (only the
`fields` test carries it, together with the hash/unhash functions that are
hard-wired below). -/
structure DiffTest where
  layer_prop_name : String
  change_id : Nat
  isArray : Bool := false
deriving DecidableEq, Repr

/-! ### `_layer_diff` as defined inside `compare` in `mapping/_mapping3.py` -/

/-- Source: `eq = lambda a, b, k: b[k] == a[k] if k in a and k in b else False`
(`_mapping3.py`). -/
def eq3 (a b : LayerRecord) (k : String) : Bool :=
  match dictGet a k, dictGet b k with
  | some va, some vb => lvalEq vb va
  | _, _ => false

/-- Source: `_express_diff(a, b, k, type)` (`_mapping3.py`): the appended entry uses
`a[k] if k in a else None` and `b[k] if k in b else None`. -/
def express_diff3 (a b : LayerRecord) (k : String) (t : Nat) : DiffEntry :=
  { type := t, was := dictGet a k, now := dictGet b k }

/-- The `"hash"` lambda of the `fields` test (`_mapping3.py`):
`"%s|%s|%s" % (_dict['index'], _dict['name'], _dict['visible'])`;
Python renders booleans as `True`/`False`. -/
def fieldHash3 (f : FieldInfo) : String :=
  toString f.index ++ "|" ++ f.name ++ "|" ++ (if f.visible then "True" else "False")

/-- The `"unhash"` lambda (`_mapping3.py`): `hash.split("|")[0]`. -/
def unhash3 (h : String) : String :=
  (h.splitOn "|").headD ""

/-- Source: `inflate(arr, index)` (`_mapping3.py`):
`[x for x in arr if x['index'] == int(index)][0]`; `int` of an unparsable
string raises `ValueError`, indexing an empty list raises `IndexError`. -/
def inflate3 (arr : List FieldInfo) (index : String) : Except PyErr FieldInfo :=
  match index.toInt? with
  | Option.none => Except.error PyErr.valueError
  | some i =>
    match (arr.filter (fun x => x.index == i)).head? with
    | Option.none => Except.error PyErr.indexError
    | some f => Except.ok f

/-- The `tests` list of `_layer_diff` (`_mapping3.py`), in source order. -/
def diffTests3 : List DiffTest :=
  [⟨"id", layer_id_changed, false⟩,
   ⟨"name", layer_name_changed, false⟩,
   ⟨"visible", layer_visibility_changed, false⟩,
   ⟨"workspacePath", layer_datasource_changed, false⟩,
   ⟨"datasetName", layer_datasource_changed, false⟩,
   ⟨"database", layer_datasource_changed, false⟩,
   ⟨"server", layer_datasource_changed, false⟩,
   ⟨"service", layer_datasource_changed, false⟩,
   ⟨"definitionQuery", layer_definition_query_changed, false⟩,
   ⟨"fields", layer_fields_changed, true⟩]

/-- Keep-first deduplication, embedding the collapse of duplicates performed
by Python `set(...)`; iteration order of the set is modelled as first
occurrence order (CPython leaves it unspecified). -/
def dedupKeepFirst : List String → List String
  | [] => []
  | x :: xs => x :: dedupKeepFirst (xs.filter (fun y => y != x))
termination_by l => l.length
decreasing_by
  simp only [List.length_cons]
  have := List.length_filter_le (fun y => y != x) xs
  omega

/-- Source: `list(set(xs).difference(set(ys)))` on strings. -/
def setDifference3 (xs ys : List String) : List String :=
  dedupKeepFirst (xs.filter (fun h => ¬ ys.contains h))

/-- Source: `set(xs) == set(ys)` on strings. -/
def strSetEqB (xs ys : List String) : Bool :=
  xs.all (fun h => ys.contains h) && ys.all (fun h => xs.contains h)

/-- Body of the `for test in tests` loop of `_layer_diff` (`_mapping3.py`)
for a single test: the entries it appends to `diff` (0 or 1).  When the key
is present on both sides the scalar/array comparison runs; otherwise an
`_express_diff` entry is appended unconditionally.  In the array branch,
iterating a non-list value raises `TypeError`. -/
def testContrib3 (a b : LayerRecord) (t : DiffTest) : Except PyErr (List DiffEntry) :=
  match dictGet a t.layer_prop_name, dictGet b t.layer_prop_name with
  | some va, some vb =>
    if t.isArray then
      match va, vb with
      | LVal.fields afs, LVal.fields bfs =>
        let hashed_a := afs.map fieldHash3
        let hashed_b := bfs.map fieldHash3
        if strSetEqB hashed_a hashed_b then Except.ok []
        else do
          let was ← (setDifference3 hashed_a hashed_b).mapM (fun x => inflate3 afs (unhash3 x))
          let now ← (setDifference3 hashed_b hashed_a).mapM (fun x => inflate3 bfs (unhash3 x))
          Except.ok [⟨t.change_id, some (LVal.fields was), some (LVal.fields now)⟩]
      | _, _ => Except.error PyErr.typeError
    else
      if lvalEq vb va then Except.ok []
      else Except.ok [express_diff3 a b t.layer_prop_name t.change_id]
  | _, _ => Except.ok [express_diff3 a b t.layer_prop_name t.change_id]

/-- Source: `_layer_diff(a, b)` (`_mapping3.py`, lines 190-287). -/
def layer_diff3 (a b : LayerRecord) : Except PyErr (List DiffEntry) :=
  diffTests3.foldlM (fun diff t => do
    let d ← testContrib3 a b t
    Except.ok (diff ++ d)) []

/-! ### `_layer_diff` as defined inside `compare` in `mp/_mp.py` -/

/-- Source: `eq` as defined in `_mp.py` (line 239). -/
def eqMp (a b : LayerRecord) (k : String) : Bool :=
  match dictGet a k, dictGet b k with
  | some va, some vb => lvalEq vb va
  | _, _ => false

/-- Source: `_express_diff` as defined in `_mp.py` (lines 256-261). -/
def express_diffMp (a b : LayerRecord) (k : String) (t : Nat) : DiffEntry :=
  { type := t, was := dictGet a k, now := dictGet b k }

/-- The `"hash"` lambda of the `fields` test in `_mp.py` (line 319). -/
def fieldHashMp (f : FieldInfo) : String :=
  toString f.index ++ "|" ++ f.name ++ "|" ++ (if f.visible then "True" else "False")

/-- The `"unhash"` lambda in `_mp.py` (line 320). -/
def unhashMp (h : String) : String :=
  (h.splitOn "|").headD ""

/-- Source: `inflate(arr, index)` as defined in `_mp.py` (lines 347-348). -/
def inflateMp (arr : List FieldInfo) (index : String) : Except PyErr FieldInfo :=
  match index.toInt? with
  | Option.none => Except.error PyErr.valueError
  | some i =>
    match (arr.filter (fun x => x.index == i)).head? with
    | Option.none => Except.error PyErr.indexError
    | some f => Except.ok f

/-- The `tests` list of `_layer_diff` in `_mp.py` (lines 276-322). -/
def diffTestsMp : List DiffTest :=
  [⟨"id", layer_id_changed, false⟩,
   ⟨"name", layer_name_changed, false⟩,
   ⟨"visible", layer_visibility_changed, false⟩,
   ⟨"workspacePath", layer_datasource_changed, false⟩,
   ⟨"datasetName", layer_datasource_changed, false⟩,
   ⟨"database", layer_datasource_changed, false⟩,
   ⟨"server", layer_datasource_changed, false⟩,
   ⟨"service", layer_datasource_changed, false⟩,
   ⟨"definitionQuery", layer_definition_query_changed, false⟩,
   ⟨"fields", layer_fields_changed, true⟩]

/-- Loop body of `_layer_diff` in `_mp.py` for a single test. -/
def testContribMp (a b : LayerRecord) (t : DiffTest) : Except PyErr (List DiffEntry) :=
  match dictGet a t.layer_prop_name, dictGet b t.layer_prop_name with
  | some va, some vb =>
    if t.isArray then
      match va, vb with
      | LVal.fields afs, LVal.fields bfs =>
        let hashed_a := afs.map fieldHashMp
        let hashed_b := bfs.map fieldHashMp
        if strSetEqB hashed_a hashed_b then Except.ok []
        else do
          let was ← (setDifference3 hashed_a hashed_b).mapM (fun x => inflateMp afs (unhashMp x))
          let now ← (setDifference3 hashed_b hashed_a).mapM (fun x => inflateMp bfs (unhashMp x))
          Except.ok [⟨t.change_id, some (LVal.fields was), some (LVal.fields now)⟩]
      | _, _ => Except.error PyErr.typeError
    else
      if lvalEq vb va then Except.ok []
      else Except.ok [express_diffMp a b t.layer_prop_name t.change_id]
  | _, _ => Except.ok [express_diffMp a b t.layer_prop_name t.change_id]

/-- Source: `_layer_diff(a, b)` (`_mp.py`, lines 264-365). -/
def layer_diffMp (a b : LayerRecord) : Except PyErr (List DiffEntry) :=
  diffTestsMp.foldlM (fun diff t => do
    let d ← testContribMp a b t
    Except.ok (diff ++ d)) []

/-! ### `compare` in `mapping/_mapping3.py`

`compare` operates on two `arcpy.mp.ArcGISProject` documents.  The parts of
the vendor object graph it reads are embedded as data: per map, the spatial
reference of the default camera extent, and the layer-detail records that
`list_document_data_sources`/`_get_layer_details` would produce for it
(`Option.none` embeds the `None` emitted for a group layer). -/

structure SpatialReference where
  factoryCode : Int
  type : String
  name : String
deriving DecidableEq, Repr

structure MapFrame3 where
  spatialReference : SpatialReference
  layers : List (Option LayerRecord)
deriving DecidableEq, Repr

structure Document3 where
  maps : List MapFrame3
deriving DecidableEq, Repr

/-- Data frame change reason codes (`compare_data_frames`, `_mapping3.py`). -/
def map_count_changed : Nat := 301

def data_frame_cs_code_changed : Nat := 302

def data_frame_cs_name_changed : Nat := 303

def data_frame_cs_type_changed : Nat := 304

/-- Values appearing in a data-frame diff entry (map counts and factory
codes are integers, spatial reference type/name are strings). -/
inductive CmpVal where
  | int (n : Int)
  | str (s : String)
deriving DecidableEq, Repr

structure DFDiffEntry where
  type : Nat
  was : CmpVal
  now : CmpVal
deriving DecidableEq, Repr

/-- Entries appended for one index-aligned pair of maps: factory code, then
type, then name of the default camera extent's spatial reference
(`_mapping3.py`, lines 128-154). -/
def dfPairEntries (a b : MapFrame3) : List DFDiffEntry :=
  (if a.spatialReference.factoryCode != b.spatialReference.factoryCode then
    [⟨data_frame_cs_code_changed, CmpVal.int a.spatialReference.factoryCode,
      CmpVal.int b.spatialReference.factoryCode⟩]
   else []) ++
  (if a.spatialReference.type != b.spatialReference.type then
    [⟨data_frame_cs_type_changed, CmpVal.str a.spatialReference.type,
      CmpVal.str b.spatialReference.type⟩]
   else []) ++
  (if a.spatialReference.name != b.spatialReference.name then
    [⟨data_frame_cs_name_changed, CmpVal.str a.spatialReference.name,
      CmpVal.str b.spatialReference.name⟩]
   else [])

/-- Source: `for index, a in enumerate(map_a_maps): b = map_b_maps[index]; ...`.
An out-of-range index raises `IndexError`, which the surrounding
`except`/`finally` turns into returning the diff accumulated so far. -/
def cdfLoop3 (map_b_maps : List MapFrame3) :
    List MapFrame3 → Nat → List DFDiffEntry → List DFDiffEntry
  | [], _, diff => diff
  | a :: rest, index, diff =>
    match map_b_maps[index]? with
    | Option.none => diff
    | some b => cdfLoop3 map_b_maps rest (index + 1) (diff ++ dfPairEntries a b)

/-- Source: `compare_data_frames` (`_mapping3.py`, lines 109-160).  `diff` is
initialised before the `try`, so the `finally` block always returns the
best-effort diff; no exception escapes this phase. -/
def compare_data_frames3 (map_a map_b : Document3) : List DFDiffEntry :=
  let map_a_maps := map_a.maps
  let map_b_maps := map_b.maps
  let map_a_maps_len := map_a_maps.length
  let map_b_maps_len := map_b_maps.length
  let diff :=
    if map_b_maps_len == 0 || map_a_maps_len != map_b_maps_len then
      [⟨map_count_changed, CmpVal.int (Int.ofNat map_a_maps_len),
        CmpVal.int (Int.ofNat map_b_maps_len)⟩]
    else []
  cdfLoop3 map_b_maps map_a_maps 0 diff

/-! #### `compare_layers` (`_mapping3.py`, lines 162-383)

`list_document_data_sources` in `_mapping3.py` returns one dictionary per
map, whose `"layers"` key holds a flat list of layer-detail records.  The
flattening comprehension
`[item for sublist in a[0]['layers'] for item in sublist if item is not None]`
therefore iterates each layer-detail *dictionary* as `sublist`, which in
Python yields the dictionary's keys in insertion order; a `None` entry
(group layer) is not iterable and raises `TypeError`, and `a[0]` raises
`IndexError` on a document without maps.  The candidate pools this function
actually correlates are thus lists of key *strings*.  Subscripting a string
with a string key raises `TypeError`, and `k in s` is substring containment.
-/

/-- String subscription with a string key: always `TypeError` in Python. -/
def strIndexByStr (_s _k : String) : Except PyErr String :=
  Except.error PyErr.typeError

/-- Python `k in s` on strings: substring containment. -/
def substrB (k s : String) : Bool :=
  decide (k.toList <:+: s.toList)

/-- Source: `eq = lambda a, b, k: b[k] == a[k] if k in a and k in b else False`,
applied to the string pool members the flattening produces. -/
def eqS (a b k : String) : Except PyErr Bool :=
  if substrB k a && substrB k b then do
    let vb ← strIndexByStr b k
    let va ← strIndexByStr a k
    Except.ok (vb == va)
  else Except.ok false

def same_idS (a b : String) : Except PyErr Bool := eqS a b "id"

def same_nameS (a b : String) : Except PyErr Bool := eqS a b "name"

def same_datasourceS (a b : String) : Except PyErr Bool := eqS a b "datasetName"

/-- The mutable accumulators of `compare_layers`: `resolved_a`/`resolved_b`
(dicts keyed by name, embedded as key lists), and the three result lists. -/
structure CmpState3 where
  resolved_a : List String
  resolved_b : List String
  added : List String
  updated : List String
  removed : List String
deriving DecidableEq, Repr

/-- Source: `is_resolved_a = lambda x: x['name'] in resolved_a` (and the `_b`
variant): on a string pool member, `x['name']` raises `TypeError`. -/
def is_resolvedS (resolved : List String) (x : String) : Except PyErr Bool := do
  let n ← strIndexByStr x "name"
  Except.ok (resolved.contains n)

/-- One element of the `tests` list of `compare_layers`: the matcher lambda
and the optional `'ignore': True` flag. -/
structure LayerTest3 where
  fn : CmpState3 → String → String → Except PyErr (Option String)
  ignore : Bool := false

/-- The `tests` list (`_mapping3.py`, lines 310-343), in source order, with
the short-circuit evaluation order of each `and`-chain preserved. -/
def layerTests3 : List LayerTest3 :=
  [ -- same id/name and datasource. Unchanged
   { fn := fun _ a b => do
       let h1 ← same_idS a b
       if h1 then do
         let h2 ← same_nameS a b
         if h2 then do
           let h3 ← same_datasourceS a b
           Except.ok (if h3 then some b else Option.none)
         else Except.ok Option.none
       else Except.ok Option.none,
     ignore := true },
   -- same name and id, datasource changed
   { fn := fun st a b => do
       let h1 ← same_idS a b
       if h1 then do
         let h2 ← same_nameS a b
         if h2 then do
           let r1 ← is_resolvedS st.resolved_a a
           if !r1 then do
             let r2 ← is_resolvedS st.resolved_b b
             Except.ok (if !r2 then some b else Option.none)
           else Except.ok Option.none
         else Except.ok Option.none
       else Except.ok Option.none },
   -- same id and datasource, name changed
   { fn := fun st a b => do
       let h1 ← same_idS a b
       if h1 then do
         let h2 ← same_datasourceS a b
         if h2 then do
           let r1 ← is_resolvedS st.resolved_a a
           if !r1 then do
             let r2 ← is_resolvedS st.resolved_b b
             Except.ok (if !r2 then some b else Option.none)
           else Except.ok Option.none
         else Except.ok Option.none
       else Except.ok Option.none },
   -- same id. Assumed valid if fixed data sources enabled
   { fn := fun st a b => do
       let h1 ← same_idS a b
       if h1 then do
         let r1 ← is_resolvedS st.resolved_a a
         if !r1 then do
           let r2 ← is_resolvedS st.resolved_b b
           Except.ok (if !r2 then some b else Option.none)
         else Except.ok Option.none
       else Except.ok Option.none },
   -- same name and datasource, id changed
   { fn := fun st a b => do
       let h1 ← same_nameS a b
       if h1 then do
         let h2 ← same_datasourceS a b
         if h2 then do
           let r1 ← is_resolvedS st.resolved_a a
           if !r1 then do
             let r2 ← is_resolvedS st.resolved_b b
             Except.ok (if !r2 then some b else Option.none)
           else Except.ok Option.none
         else Except.ok Option.none
       else Except.ok Option.none },
   -- same name, id/datasource changed
   { fn := fun st a b => do
       let h1 ← same_nameS a b
       if h1 then do
         let r1 ← is_resolvedS st.resolved_a a
         if !r1 then do
           let r2 ← is_resolvedS st.resolved_b b
           Except.ok (if !r2 then some b else Option.none)
         else Except.ok Option.none
       else Except.ok Option.none }]

/-- Entries of the string-pool variant of `_layer_diff` (dead code in
practice, reached only from the matched branch of the correlation loop). -/
structure StrDiffEntry where
  type : Nat
  was : Option String
  now : Option String
deriving DecidableEq, Repr

/-- Source: `_express_diff` applied to string pool members: `a[k] if k in a else
None` raises `TypeError` whenever the key string is contained in `a`. -/
def express_diff_str (a b k : String) : Except PyErr (Option String × Option String) := do
  let was ←
    if substrB k a then do
      let v ← strIndexByStr a k
      Except.ok (some v)
    else Except.ok Option.none
  let now ←
    if substrB k b then do
      let v ← strIndexByStr b k
      Except.ok (some v)
    else Except.ok Option.none
  Except.ok (was, now)

/-- Source: `_layer_diff` applied to string pool members.  When the key is contained
in both strings, both the array branch (iterating `a[k]`) and the scalar
branch (`b[k] == a[k]`) begin by subscripting a string and raise
`TypeError`; otherwise an `_express_diff` entry is appended. -/
def layer_diff_str (a b : String) : Except PyErr (List StrDiffEntry) :=
  diffTests3.foldlM (fun diff t => do
    if substrB t.layer_prop_name a && substrB t.layer_prop_name b then do
      let _ ←
        if t.isArray then strIndexByStr a t.layer_prop_name
        else strIndexByStr b t.layer_prop_name
      Except.ok diff
    else do
      let wn ← express_diff_str a b t.layer_prop_name
      Except.ok (diff ++ [⟨t.change_id, wn.1, wn.2⟩])) []

/-- The innermost `for index, test in enumerate(tests)` loop of
`compare_layers`.  `match` is reassigned by every test; on a match both
resolution dicts are updated, `b_layer['diff'] = _layer_diff(...)` is
executed (on a string pool member the right-hand side is evaluated first and
the item assignment then raises `TypeError`, so the conditional
append/`break` tail of the matched branch is unreachable here), and errors
carry the state current at the raise point. -/
def runTests3 (st : CmpState3) (a_layer b_layer : String) :
    List LayerTest3 → Option String → Except (PyErr × CmpState3) (Option String × CmpState3)
  | [], m => Except.ok (m, st)
  | t :: ts, _ =>
    match t.fn st a_layer b_layer with
    | Except.error e => Except.error (e, st)
    | Except.ok mtc =>
      match mtc with
      | Option.none => runTests3 st a_layer b_layer ts Option.none
      | some _mv =>
        match strIndexByStr a_layer "name" with
        | Except.error e => Except.error (e, st)
        | Except.ok an =>
          let st1 := { st with resolved_a := st.resolved_a ++ [an] }
          match strIndexByStr b_layer "name" with
          | Except.error e => Except.error (e, st1)
          | Except.ok bn =>
            let st2 := { st1 with resolved_b := st1.resolved_b ++ [bn] }
            match layer_diff_str a_layer b_layer with
            | Except.error e => Except.error (e, st2)
            | Except.ok _d => Except.error (PyErr.typeError, st2)

/-- The `for a_layer in a_layers` loop for a fixed `b_layer`: the `break`
in the source exits only the tests loop, so this loop always continues to
the next candidate, threading `match` and the accumulator state. -/
def runALoop3 (b_layer : String) :
    List String → Option String → CmpState3 → Except (PyErr × CmpState3) (Option String × CmpState3)
  | [], m, st => Except.ok (m, st)
  | a_layer :: rest, m, st =>
    match runTests3 st a_layer b_layer layerTests3 m with
    | Except.error e => Except.error e
    | Except.ok (m2, st2) => runALoop3 b_layer rest m2 st2

/-- The `for b_layer in b_layers` loop, including the trailing
`if match is None and not is_resolved_b(b_layer)` new-layer check. -/
def runBLoop3 (a_layers : List String) :
    List String → CmpState3 → Except (PyErr × CmpState3) CmpState3
  | [], st => Except.ok st
  | b_layer :: rest, st =>
    match runALoop3 b_layer a_layers Option.none st with
    | Except.error e => Except.error e
    | Except.ok (m, st2) =>
      match m with
      | some _ => runBLoop3 a_layers rest st2
      | Option.none =>
        match is_resolvedS st2.resolved_b b_layer with
        | Except.error e => Except.error (e, st2)
        | Except.ok r =>
          if r then runBLoop3 a_layers rest st2
          else
            match strIndexByStr b_layer "name" with
            | Except.error e => Except.error (e, st2)
            | Except.ok bn =>
              runBLoop3 a_layers rest
                { st2 with
                  resolved_b := st2.resolved_b ++ [bn]
                  added := st2.added ++ [b_layer] }

/-- The final `for a_layer in a_layers` removed-layers loop. -/
def runRemoved3 : List String → CmpState3 → Except (PyErr × CmpState3) CmpState3
  | [], st => Except.ok st
  | a_layer :: rest, st =>
    match is_resolvedS st.resolved_a a_layer with
    | Except.error e => Except.error (e, st)
    | Except.ok r =>
      if r then runRemoved3 rest st
      else
        match strIndexByStr a_layer "name" with
        | Except.error e => Except.error (e, st)
        | Except.ok an =>
          runRemoved3 rest
            { st with
              resolved_a := st.resolved_a ++ [an]
              removed := st.removed ++ [a_layer] }

/-- The flattening comprehension over `a[0]['layers']` (`_mapping3.py`,
line 293): `a[0]` raises `IndexError` on a document without maps; iterating
a `None` group-layer placeholder raises `TypeError`; iterating a
layer-detail dict yields its key strings in insertion order (all of which
pass the `if item is not None` filter). -/
def flattenFirstMapKeys3 (doc : Document3) : Except PyErr (List String) :=
  match doc.maps with
  | [] => Except.error PyErr.indexError
  | m :: _ =>
    m.layers.foldlM (fun acc sublist =>
      match sublist with
      | Option.none => Except.error PyErr.typeError
      | some record => Except.ok (acc ++ record.map (fun kv => kv.1))) []

structure LayersResult3 where
  added : List String
  updated : List String
  removed : List String
deriving DecidableEq, Repr

/-- Source: `compare_layers` (`_mapping3.py`, lines 162-383), with the exact
`try/except Exception/finally` semantics of the source: `added`, `updated`
and `removed` are assigned *after* the pools are flattened, so an exception
during flattening is caught, but the `finally` block's
`return {'added': added, ...}` then raises `UnboundLocalError`, which
propagates to the caller of `compare_layers`.  An exception raised after
the accumulators are initialised is caught and the `finally` block returns
the accumulators as they stood. -/
def compare_layers3 (map_a map_b : Document3) : Except PyErr LayersResult3 :=
  match flattenFirstMapKeys3 map_a with
  | Except.error _ => Except.error PyErr.unboundLocalError
  | Except.ok a_layers =>
    match flattenFirstMapKeys3 map_b with
    | Except.error _ => Except.error PyErr.unboundLocalError
    | Except.ok b_layers =>
      let st0 : CmpState3 := ⟨[], [], [], [], []⟩
      match
        (match runBLoop3 a_layers b_layers st0 with
         | Except.error e => Except.error e
         | Except.ok st1 => runRemoved3 a_layers st1) with
      | Except.ok st => Except.ok ⟨st.added, st.updated, st.removed⟩
      | Except.error (_, st) => Except.ok ⟨st.added, st.updated, st.removed⟩

structure CompareResult3 where
  dataFrames : List DFDiffEntry
  layers : LayersResult3
deriving DecidableEq, Repr

/-- Source: `compare(map_a, map_b)` (`_mapping3.py`, lines 93-385): the result dict
evaluates `compare_data_frames()` first, then `compare_layers()`; an
exception escaping `compare_layers` propagates out of `compare`. -/
def compare3 (map_a map_b : Document3) : Except PyErr CompareResult3 :=
  let df := compare_data_frames3 map_a map_b
  match compare_layers3 map_a map_b with
  | Except.error e => Except.error e
  | Except.ok ly => Except.ok ⟨df, ly⟩

/-- A throwaway spatial reference for concrete documents. -/
def srWGS84 : SpatialReference := ⟨4326, "Geographic", "GCS_WGS_1984"⟩

/-! ### The candidate-pool flattening of `compare_layers` in `mp/_mp.py`

In `_mp.py`, `list_document_data_sources` returns a dictionary whose
`"layers"` value is a list of per-data-frame lists of layer-detail records
(`None` for group layers), so there the comprehension
`[item for sublist in a['layers'] for item in sublist if item is not None]`
flattens all data frames' records into one pool. -/

abbrev MpLayerGroups := List (List (Option LayerRecord))

/-- The pool flattening of `compare_layers` (`_mp.py`, lines 371-372). -/
def flatten_pool_mp (layerGroups : MpLayerGroups) : List LayerRecord :=
  (layerGroups.map (fun sublist => sublist.filterMap (fun item => item))).flatten

/-! ### `change_data_sources` in `mapping/_mapping3.py` (lines 30-90) -/

/-- Modelled from the spec: the exception classes (`MapLayerError`,
`DataSourceUpdateError`, `ChangeDataSourcesError`) are imported from
`..exceptions`, of which only `ChangeDataSourcesError` is among the sources;
per the spec's error-handling design, the per-item `DataSourceUpdateError`s
raised by `_change_data_source` are the recoverable `MapLayerError`s that
`change_data_sources` catches and collects.  The two cases carry the two
messages `_change_data_source` can produce. -/
inductive MapLayerErr where
  | arcpyInternal (layerName : String)
  | nowBroken (layerName : String)
deriving DecidableEq, Repr

/-- The ways `change_data_sources` can terminate with an exception. -/
inductive CDSFatal where
  | missingKeys
  | layerCountMismatch
  | tableCountMismatch
  | typeError
  | attributeError
  | aggregate (errors : List MapLayerErr)
deriving DecidableEq, Repr

/-- One (non-`None`) replacement entry: a Python dict carrying an optional
`connectionProperties` value (read with `.get` for table views) and an
abstract identity for the whole dict (passed as-is for layers). -/
structure LayerSource where
  connectionProperties : Option Nat
  dictId : Nat
deriving DecidableEq, Repr

/-- The `new_props` argument handed to the vendor
`updateConnectionProperties` call. -/
inductive UpdateArg where
  | layerDict (dictId : Nat)
  | connProps (v : Option Nat)
deriving DecidableEq, Repr

/-- A live layer or table view of the project.  The vendor behaviour of
`updateConnectionProperties` and `isBroken` is abstracted into two flags,
and the observable mutation is recorded as the list of update arguments
applied so far. -/
structure PLayer where
  name : String
  updateRaises : Bool
  brokenAfterUpdate : Bool
  updates : List UpdateArg := []
deriving DecidableEq, Repr

/-- Source: `_change_data_source(layer, new_props)` (`_mapping3.py`, lines 531-541):
an exception inside the vendor update is wrapped into a
`DataSourceUpdateError` (no mutation happened); otherwise the connection is
updated and, if the layer then reports itself broken, a second
`DataSourceUpdateError` is raised with the mutation already applied. -/
def change_data_source_one (layer : PLayer) (new_props : UpdateArg) :
    PLayer × Option MapLayerErr :=
  if layer.updateRaises then (layer, some (MapLayerErr.arcpyInternal layer.name))
  else
    let layer2 := { layer with updates := layer.updates ++ [new_props] }
    if layer2.brokenAfterUpdate then (layer2, some (MapLayerErr.nowBroken layer.name))
    else (layer2, Option.none)

/-- One map of the project: its layer list and its table-view list. -/
structure PMap where
  layers : List PLayer
  tables : List PLayer
deriving DecidableEq, Repr

/-- One element of the `data_sources` argument: a dict which may or may not
carry the `layers` / `tableViews` keys, whose `layers` value may be `None`,
and whose lists hold `None` (skip) or replacement dicts. -/
structure MapDataSources where
  hasLayersKey : Bool
  hasTableViewsKey : Bool
  layers : Option (List (Option LayerSource))
  tableViews : Option (List (Option LayerSource))
deriving DecidableEq, Repr

/-- The per-item loop shared by the layer and table phases
(`_mapping3.py`, lines 49-65 and 73-87): a `None` source is skipped; a
`MapLayerError` from `_change_data_source` is appended to `errors` and the
loop continues.  `zip_longest` padding arms are unreachable because the
caller raises on a length mismatch first (Python would skip a padded-`None`
source and raise `AttributeError` on a padded-`None` layer). -/
def processItems (argOf : LayerSource → UpdateArg) :
    List PLayer → List (Option LayerSource) → List MapLayerErr →
    List PLayer × List MapLayerErr
  | [], _, errs => ([], errs)
  | l :: ls, [], errs =>
    let r := processItems argOf ls [] errs
    (l :: r.1, r.2)
  | l :: ls, s :: ss, errs =>
    match s with
    | Option.none =>
      let r := processItems argOf ls ss errs
      (l :: r.1, r.2)
    | some src =>
      let lr := change_data_source_one l (argOf src)
      let errs2 := match lr.2 with
        | some e => errs ++ [e]
        | Option.none => errs
      let r := processItems argOf ls ss errs2
      (lr.1 :: r.1, r.2)

/-- For a layer, the whole replacement dict is passed to
`_change_data_source` (`_mapping3.py`, line 56). -/
def layerArgOf (src : LayerSource) : UpdateArg :=
  UpdateArg.layerDict src.dictId

/-- For a table view, `layer_source.get("connectionProperties")` is passed
(`_mapping3.py`, line 82). -/
def tableArgOf (src : LayerSource) : UpdateArg :=
  UpdateArg.connProps src.connectionProperties

/-- The body of the `for proj_map, map_data_sources in zip_longest(...)`
loop for one (map, data-sources) pair.  Fatal errors carry the state of the
map at the raise point: the layer-count check precedes any layer mutation,
but the table-count check runs only after the layer loop (`len(None)` for a
`None` `tableViews` value raises `TypeError`). -/
def processMapPair (m : PMap) (mds : MapDataSources) (errs : List MapLayerErr) :
    Except (CDSFatal × PMap) (PMap × List MapLayerErr) :=
  if !mds.hasLayersKey || !mds.hasTableViewsKey then
    Except.error (CDSFatal.missingKeys, m)
  else
    match mds.layers with
    | Option.none => Except.error (CDSFatal.layerCountMismatch, m)
    | some layer_sources =>
      if m.layers.length != layer_sources.length then
        Except.error (CDSFatal.layerCountMismatch, m)
      else
        let rl := processItems layerArgOf m.layers layer_sources errs
        let m1 : PMap := { m with layers := rl.1 }
        match mds.tableViews with
        | Option.none => Except.error (CDSFatal.typeError, m1)
        | some table_sources =>
          if m1.tables.length != table_sources.length then
            Except.error (CDSFatal.tableCountMismatch, m1)
          else
            let rt := processItems tableArgOf m1.tables table_sources rl.2
            Except.ok ({ m1 with tables := rt.1 }, rt.2)

/-- The `zip_longest` loop of `change_data_sources` plus the final
aggregate raise.  A raise leaves the document in its partially mutated
state, which the error carries.  `zip_longest` pads the shorter side with
`None`: a missing data-sources dict makes `'layers' in None` raise
`TypeError`; a missing map passes the keys check (if the dict has the keys)
and then `None.listLayers()` raises `AttributeError`. -/
def cds_go : List PMap → List MapDataSources → List PMap → List MapLayerErr →
    Except (CDSFatal × List PMap) (List PMap)
  | [], [], done, errs =>
    if errs.isEmpty then Except.ok done
    else Except.error (CDSFatal.aggregate errs, done)
  | [], mds :: _, done, _errs =>
    if !mds.hasLayersKey || !mds.hasTableViewsKey then
      Except.error (CDSFatal.missingKeys, done)
    else Except.error (CDSFatal.attributeError, done)
  | m :: ms, [], done, _errs =>
    Except.error (CDSFatal.typeError, done ++ m :: ms)
  | m :: ms, mds :: rest, done, errs =>
    match processMapPair m mds errs with
    | Except.error (f, m2) => Except.error (f, done ++ m2 :: ms)
    | Except.ok (m2, errs2) => cds_go ms rest (done ++ [m2]) errs2

/-- Source: `change_data_sources(project, data_sources)` (`_mapping3.py`,
lines 30-90), on an already opened project. -/
def change_data_sources (project : List PMap) (data_sources : List MapDataSources) :
    Except (CDSFatal × List PMap) (List PMap) :=
  cds_go project data_sources [] []

/-! ### `create_replacement_data_sources_list` / `match_new_data_source`
(`_mapping3.py`, lines 388-425) -/

/-- A Python value of the layer-detail records and template criteria handled
by the template matcher, including the `frozenset`/`tuple` forms produced by
`freeze` (a frozenset element is always a `(key, value)` pair here). -/
inductive PyVal where
  | none
  | int (n : Int)
  | str (s : String)
  | bool (b : Bool)
  | dict (kvs : List (String × PyVal))
  | list (xs : List PyVal)
  | fset (kvs : List (String × PyVal))
  | tup (xs : List PyVal)

mutual

/-- Source: `freeze(d)` (`_mapping3.py`, lines 399-405): dicts become frozensets of
`(key, frozen value)` pairs, lists become tuples of frozen elements, and
anything else is returned unchanged. -/
def freeze : PyVal → PyVal
  | PyVal.dict kvs => PyVal.fset (freezeKVs kvs)
  | PyVal.list xs => PyVal.tup (freezeList xs)
  | v => v

def freezeKVs : List (String × PyVal) → List (String × PyVal)
  | [] => []
  | (k, v) :: rest => (k, freeze v) :: freezeKVs rest

def freezeList : List PyVal → List PyVal
  | [] => []
  | v :: rest => freeze v :: freezeList rest

end

mutual

/-- Python `==` on the embedded values: `None == None`, `bool` identified
with `int` numerically, element-wise equality of lists and tuples (which
never equal each other), order-insensitive equality of dicts and
frozensets, and `False` across remaining type combinations. -/
def pyEq : PyVal → PyVal → Bool
  | PyVal.none, PyVal.none => true
  | PyVal.int m, PyVal.int n => m == n
  | PyVal.str s, PyVal.str t => s == t
  | PyVal.bool x, PyVal.bool y => x == y
  | PyVal.bool x, PyVal.int n => (if x then (1 : Int) else 0) == n
  | PyVal.int n, PyVal.bool x => n == (if x then (1 : Int) else 0)
  | PyVal.list xs, PyVal.list ys => pyEqList xs ys
  | PyVal.tup xs, PyVal.tup ys => pyEqList xs ys
  | PyVal.dict xs, PyVal.dict ys => pyEqPairsSub xs ys && pyEqPairsSub ys xs
  | PyVal.fset xs, PyVal.fset ys => pyEqPairsSub xs ys && pyEqPairsSub ys xs
  | _, _ => false
termination_by a b => sizeOf a + sizeOf b

def pyEqList : List PyVal → List PyVal → Bool
  | [], [] => true
  | x :: xs, y :: ys => pyEq x y && pyEqList xs ys
  | _, _ => false
termination_by xs ys => sizeOf xs + sizeOf ys

/-- Python set membership of a `(key, value)` pair, by `==`. -/
def pyMemPair : (String × PyVal) → List (String × PyVal) → Bool
  | _, [] => false
  | (k, v), (k2, v2) :: qs => (k == k2 && pyEq v v2) || pyMemPair (k, v) qs
termination_by p qs => sizeOf p + sizeOf qs

def pyEqPairsSub : List (String × PyVal) → List (String × PyVal) → Bool
  | [], _ => true
  | p :: ps, qs => pyMemPair p qs && pyEqPairsSub ps qs
termination_by ps qs => sizeOf ps + sizeOf qs

end

/-- One data source template.  The source first rebuilds each template dict
with its `matchCriteria` dict replaced by `set(template["matchCriteria"].items())`;
the criteria are embedded directly as that list of items. -/
structure DataSourceTemplate where
  matchCriteria : List (String × PyVal)
  dataSource : PyVal

/-- Source: `template["matchCriteria"].issubset(set(freeze(item)))` for a dict
`item`: every criteria pair is a member (by Python `==`) of the frozen
record's pair set. -/
def criteriaSubsetB (crit : List (String × PyVal)) (item : List (String × PyVal)) : Bool :=
  crit.all (fun c => pyMemPair c (freezeKVs item))

/-- The `for template in template_sets: ... break` loop of
`match_new_data_source`: `new_conn` is `None` unless some template's
criteria match, in which case the first match's `dataSource` wins. -/
def findNewConn (templates : List DataSourceTemplate) (item : List (String × PyVal)) : PyVal :=
  match templates with
  | [] => PyVal.none
  | t :: ts =>
    if criteriaSubsetB t.matchCriteria item then t.dataSource
    else findNewConn ts item

/-- Source: `match_new_data_source(item)` (`_mapping3.py`, lines 407-420): a `None`
item returns `None` immediately; otherwise the first matching template's
`dataSource` is taken, and `RuntimeError` is raised when `new_conn == None`
and strict mode is requested. -/
def match_new_data_source (raise_exception_no_change : Bool)
    (templates : List DataSourceTemplate)
    (item : Option (List (String × PyVal))) : Except String PyVal :=
  match item with
  | Option.none => Except.ok PyVal.none
  | some record =>
    let new_conn := findNewConn templates record
    if pyEq new_conn PyVal.none && raise_exception_no_change then
      Except.error "No matching data source was found for layer"
    else Except.ok new_conn

structure ReplacementFrame where
  layers : List PyVal
  tableViews : List PyVal

structure DocDataFrame where
  layers : List (Option (List (String × PyVal)))
  tableViews : List (Option (List (String × PyVal)))

/-- Source: `create_replacement_data_sources_list` (`_mapping3.py`, lines 388-425). -/
def create_replacement_data_sources_list (docList : List DocDataFrame)
    (templates : List DataSourceTemplate) (raise_exception_no_change : Bool) :
    Except String (List ReplacementFrame) :=
  docList.mapM (fun df => do
    let ls ← df.layers.mapM (match_new_data_source raise_exception_no_change templates)
    let ts ← df.tableViews.mapM (match_new_data_source raise_exception_no_change templates)
    Except.ok ⟨ls, ts⟩)

/-! ## Helper lemmas -/

lemma exceptBindOk {α β ε : Type} (x : α) (k : α → Except ε β) :
    (Except.ok x >>= k) = k x := rfl

lemma exceptBindErr {α β ε : Type} (e : ε) (k : α → Except ε β) :
    ((Except.error e : Except ε α) >>= k) = Except.error e := rfl

lemma exceptPureEq {α ε : Type} (x : α) : (pure x : Except ε α) = Except.ok x := rfl

/-- The accumulator-threading fold of `_layer_diff` is the concatenation of
the per-test contributions. -/
lemma foldlM_append_eq_mapM_flatten (f : DiffTest → Except PyErr (List DiffEntry)) :
    ∀ (ts : List DiffTest) (acc : List DiffEntry),
      ts.foldlM (fun diff t => do
        let d ← f t
        Except.ok (diff ++ d)) acc =
      (ts.mapM f).map (fun ls => acc ++ ls.flatten) := by
  intro ts
  induction ts with
  | nil =>
    intro acc
    rw [List.foldlM_nil, List.mapM_nil]
    show Except.ok acc = Except.ok (acc ++ List.flatten [])
    simp
  | cons t ts ih =>
    intro acc
    rw [List.foldlM_cons, List.mapM_cons]
    cases h : f t with
    | error e => rfl
    | ok d =>
      simp only [exceptBindOk]
      rw [ih]
      cases h2 : ts.mapM f with
      | error e2 => rfl
      | ok ls =>
        show Except.ok ((acc ++ d) ++ ls.flatten) = Except.ok (acc ++ (d :: ls).flatten)
        simp [List.append_assoc]

/-- The per-key entries the scalar path of `_layer_diff` contributes. -/
def scalarContrib (a b : LayerRecord) (k : String) (v : Nat) : List DiffEntry :=
  match dictGet a k, dictGet b k with
  | some va, some vb =>
    if lvalEq vb va then [] else [express_diff3 a b k v]
  | _, _ => [express_diff3 a b k v]

/-- The concrete before-record of the specification's scenario. -/
def roadsBefore : LayerRecord :=
  [("id", LVal.int 1), ("name", LVal.str "Roads"), ("datasetName", LVal.str "roads_2020")]

/-- The concrete after-record of the specification's scenario. -/
def roadsAfter : LayerRecord :=
  [("id", LVal.int 1), ("name", LVal.str "Roads"), ("datasetName", LVal.str "roads_2021")]

/-- What `_layer_diff` actually returns on the scenario records. -/
def roadsActualDiff : List DiffEntry :=
  [⟨layer_visibility_changed, Option.none, Option.none⟩,
   ⟨layer_datasource_changed, Option.none, Option.none⟩,
   ⟨layer_datasource_changed, some (LVal.str "roads_2020"), some (LVal.str "roads_2021")⟩,
   ⟨layer_datasource_changed, Option.none, Option.none⟩,
   ⟨layer_datasource_changed, Option.none, Option.none⟩,
   ⟨layer_datasource_changed, Option.none, Option.none⟩,
   ⟨layer_definition_query_changed, Option.none, Option.none⟩,
   ⟨layer_fields_changed, Option.none, Option.none⟩]

/-! ## Claim C9 -/

/-- C9: the `_layer_diff` routine defined inside `compare` in
`mp/_mp.py` and the one defined inside `compare` in `mapping/_mapping3.py`
are extensionally equal: on every pair of layer records they produce the
same diff outcome (same entries, same change codes, same order). -/
theorem c9_layer_diff_extensionally_equal :
    ∀ a b : LayerRecord, layer_diff3 a b = layer_diffMp a b :=
  fun _ _ => rfl

/-! ## Claim C10 -/

/-- C10: for a `None` record (the placeholder emitted for a group layer),
`match_new_data_source` returns `None` for every template list and without
raising, even when strict mode (`raise_exception_no_change=True`) is
requested. -/
theorem c10_none_record_returns_none :
    ∀ (strict : Bool) (templates : List DataSourceTemplate),
      match_new_data_source strict templates Option.none = Except.ok PyVal.none :=
  fun _ _ => rfl

/-! ## Claim C8 -/

/-- C8 (counterexample): the claim says the matcher "returns the dataSource
payload of the first template in declaration order whose matchCriteria set
is a subset of the frozen record, and on no match returns None, or raises
an error when strict mode is requested".  For the template list
`[{matchCriteria: {}, dataSource: None}]` and the record `{}` in strict
mode, the first (and only) template matches — its empty criteria set is a
subset of every frozen record — yet the code raises `RuntimeError` instead
of returning the matched payload, because it tests `new_conn == None`
rather than "no template matched". -/
theorem c8_counterexample :
    criteriaSubsetB ([] : List (String × PyVal)) [] = true ∧
    match_new_data_source true [⟨[], PyVal.none⟩] (some []) =
      Except.error "No matching data source was found for layer" := by
  refine ⟨rfl, ?_⟩
  simp [match_new_data_source, findNewConn, criteriaSubsetB, pyEq]

lemma findNewConn_eq_find? :
    ∀ (ts : List DataSourceTemplate) (record : List (String × PyVal)),
      findNewConn ts record =
        ((ts.find? (fun t => criteriaSubsetB t.matchCriteria record)).map
          (fun t => t.dataSource)).getD PyVal.none := by
  intro ts record
  induction ts with
  | nil => rfl
  | cons t ts ih =>
    by_cases h : criteriaSubsetB t.matchCriteria record
    · simp [findNewConn, List.find?_cons_of_pos, h]
    · rw [findNewConn]
      simp only [h]
      rw [List.find?_cons_of_neg _ (by simp [h]), if_neg (by simp [h])]
      exact ih

/-- C8 (amended): the matcher freezes the record and tests each template's
criteria set for subset inclusion (each criteria pair must be a member of
the frozen record's pair set); the first template in declaration order
wins.  It returns that template's `dataSource` payload when the payload is
not `None`; when no template matches — or when the matched payload is
itself `None` — it returns `None`, or raises an error when strict mode is
requested. -/
theorem c8_first_match_semantics :
    (∀ (crit item : List (String × PyVal)),
        criteriaSubsetB crit item = true ↔
          ∀ c ∈ crit, pyMemPair c (freezeKVs item) = true) ∧
    (∀ (strict : Bool) (templates : List DataSourceTemplate)
        (record : List (String × PyVal)),
        match_new_data_source strict templates (some record) =
          match templates.find? (fun t => criteriaSubsetB t.matchCriteria record) with
          | some t =>
            if pyEq t.dataSource PyVal.none && strict then
              Except.error "No matching data source was found for layer"
            else Except.ok t.dataSource
          | Option.none =>
            if strict then Except.error "No matching data source was found for layer"
            else Except.ok PyVal.none) := by
  constructor
  · intro crit item
    exact List.all_eq_true
  · intro strict templates record
    show (let new_conn := findNewConn templates record
          if pyEq new_conn PyVal.none && strict then
            Except.error "No matching data source was found for layer"
          else Except.ok new_conn) = _
    rw [findNewConn_eq_find?]
    cases h : templates.find? (fun t => criteriaSubsetB t.matchCriteria record) with
    | none => simp [pyEq]
    | some t => simp

/-! ## Claim C4 -/

/-- The candidate pool as the specification words it (a second definition,
following the spec, for comparison with the code): the layer records of all
data frames of the document, `None` entries excluded. -/
def specCandidatePool (doc : Document3) : List LayerRecord :=
  (doc.maps.map (fun m => m.layers.filterMap (fun item => item))).flatten

/-- A two-map document: the second map carries a layer record that the
spec's pool contains but `_mapping3.py`'s flattening never reads. -/
def docTwoMaps : Document3 :=
  ⟨[⟨srWGS84, [some [("name", LVal.str "A")]]⟩,
    ⟨srWGS84, [some [("name", LVal.str "B"), ("id", LVal.int 2)]]⟩]⟩

/-- C4 (counterexample): in `_mapping3.py` the pool is built from
`a[0]['layers']` only — the comment in the source even says "only compare
layers on first map" — and iterating each record dict yields its key
strings.  On a two-map document the code's pool is `["name"]` (the key
strings of the first map's single record), while the pool described by the
claim contains the records of both maps. -/
theorem c4_counterexample :
    flattenFirstMapKeys3 docTwoMaps = Except.ok ["name"] ∧
    specCandidatePool docTwoMaps =
      [[("name", LVal.str "A")], [("name", LVal.str "B"), ("id", LVal.int 2)]] :=
  ⟨rfl, rfl⟩

/-- C4 (amended): in `mp/_mp.py` the candidate pool flattens the layer
lists of all data frames into one pool per snapshot, excluding `None`
entries (group layers), so layers on every map participate; in
`mapping/_mapping3.py` only the first map's layer list is read, and its
record dicts are iterated as key strings. -/
theorem c4_mp_pool_flattens_all_frames :
    ∀ (layerGroups : MpLayerGroups) (r : LayerRecord),
      r ∈ flatten_pool_mp layerGroups ↔ ∃ sublist ∈ layerGroups, some r ∈ sublist := by
  intro gs r
  simp [flatten_pool_mp, List.mem_flatten, List.mem_filterMap]

/-! ## Claim C2 -/

/-- A before-document with one map holding one leaf layer. -/
def docOneLayerA : Document3 := ⟨[⟨srWGS84, [some [("name", LVal.str "A")]]⟩]⟩

/-- An after-document with one map and no layers. -/
def docNoLayers : Document3 := ⟨[⟨srWGS84, []⟩]⟩

/-- C2 (evaluation at the failing input): the before-layer `{name: "A"}`
matches nothing in the empty after-snapshot, so per the claim it must end
up in `removed`.  The code returns `removed = []` (and empty `added` and
`updated`): the pools contain key strings, the removed-loop's
`is_resolved_a` lookup raises `TypeError` on a string, and the swallowed
exception yields the empty best-effort result, so the before-layer ends up in
neither `matched` nor `removed`. -/
theorem c2_before_layer_lost :
    compare_layers3 docOneLayerA docNoLayers = Except.ok ⟨[], [], []⟩ :=
  rfl

/-! ## Claim C5 -/

/-- A document whose single map contains a group layer (a `None` layer
record) followed by a leaf layer. -/
def docGroupThenLeaf : Document3 :=
  ⟨[⟨srWGS84, [Option.none, some [("name", LVal.str "Roads")]]⟩]⟩

/-- C5 (evaluation at the failing input): comparing a document that
contains a group layer with itself.  The flattening comprehension raises
`TypeError` on the `None` group-layer placeholder *before* the `added` /
`updated` / `removed` accumulators are assigned; the `except` block
swallows that exception, but the `finally` block's
`return {'added': added, ...}` then raises `UnboundLocalError`, which
propagates out of `compare` — contradicting the claim that `compare` never
propagates an exception to the caller. -/
theorem c5_compare_propagates_unbound_local :
    compare3 docGroupThenLeaf docGroupThenLeaf = Except.error PyErr.unboundLocalError :=
  rfl

/-! ## Claim C3 -/

/-- C3 (counterexample): on the claim's own scenario — before
`{id:1, name:"Roads", datasetName:"roads_2020"}`, after
`{id:1, name:"Roads", datasetName:"roads_2021"}` — the diff is not the
single `datasource_changed` entry: `_layer_diff` appends an entry for
every attribute missing from either record (including attributes absent
from both, with `was = now = None`), so seven additional entries appear. -/
theorem c3_counterexample :
    layer_diff3 roadsBefore roadsAfter ≠
      Except.ok [⟨layer_datasource_changed,
        some (LVal.str "roads_2020"), some (LVal.str "roads_2021")⟩] := by
  intro h
  rw [show layer_diff3 roadsBefore roadsAfter = Except.ok roadsActualDiff from rfl] at h
  exact absurd (Except.ok.inj h) (by decide)

/-- C3 (amended): for a matched pair, the field-level diff decomposes into
the per-test contributions in test order; a scalar test contributes no
entry iff the attribute is present in both records with equal values — so
an entry is emitted iff the values differ or the attribute is missing from
at least one record, an attribute absent from both yielding an entry with
`was = now = None`.  On the scenario records the result is the
`datasource_changed` entry for `datasetName` together with `None`/`None`
entries for the seven attributes absent from both records. -/
theorem c3_scalar_diff_semantics :
    (∀ a b : LayerRecord,
        layer_diff3 a b = (diffTests3.mapM (testContrib3 a b)).map (fun ls => ls.flatten)) ∧
    (∀ (a b : LayerRecord) (k : String) (v : Nat),
        testContrib3 a b ⟨k, v, false⟩ = Except.ok (scalarContrib a b k v)) ∧
    (∀ (a b : LayerRecord) (k : String) (v : Nat),
        scalarContrib a b k v = [] ↔
          ∃ va vb, dictGet a k = some va ∧ dictGet b k = some vb ∧ lvalEq vb va = true) ∧
    layer_diff3 roadsBefore roadsAfter = Except.ok roadsActualDiff := by
  refine ⟨?_, ?_, ?_, rfl⟩
  · intro a b
    rw [show layer_diff3 a b = diffTests3.foldlM (fun diff t => do
          let d ← testContrib3 a b t
          Except.ok (diff ++ d)) [] from rfl]
    rw [foldlM_append_eq_mapM_flatten]
    cases h : diffTests3.mapM (testContrib3 a b) with
    | error e => rfl
    | ok ls => simp
  · intro a b k v
    cases h1 : dictGet a k <;> cases h2 : dictGet b k <;>
      simp [testContrib3, scalarContrib, h1, h2]
    split <;> rfl
  · intro a b k v
    unfold scalarContrib
    cases h1 : dictGet a k with
    | none => simp [h1]
    | some va =>
      cases h2 : dictGet b k with
      | none => simp [h1, h2]
      | some vb =>
        simp only [h1, h2]
        by_cases hEq : lvalEq vb va = true
        · rw [if_pos hEq]
          constructor
          · intro _
            exact ⟨va, vb, rfl, rfl, hEq⟩
          · intro _
            rfl
        · rw [if_neg hEq]
          constructor
          · intro h
            exact absurd h (by simp)
          · rintro ⟨va2, vb2, hva, hvb, hEq2⟩
            rw [← Option.some.inj hva, ← Option.some.inj hvb] at hEq2
            exact absurd hEq2 hEq

/-! ## Claim C1: lemmas about the string-pool correlation loops -/

lemma eqS_never_true (a b k : String) :
    eqS a b k = Except.ok false ∨ eqS a b k = Except.error PyErr.typeError := by
  unfold eqS
  by_cases h : (substrB k a && substrB k b) = true
  · right
    rw [if_pos h]
    rfl
  · left
    rw [if_neg h]

/-- None of the six matcher lambdas can return a match on string pool
members: every `eq` either returns `False` or raises `TypeError`, and every
`and`-chain begins with an `eq` test. -/
lemma layerTests3_fn_never_matches :
    ∀ t ∈ layerTests3, ∀ (st : CmpState3) (a b : String),
      t.fn st a b = Except.ok Option.none ∨ t.fn st a b = Except.error PyErr.typeError := by
  intro t ht st a b
  simp only [layerTests3, List.mem_cons, List.not_mem_nil, or_false] at ht
  rcases ht with rfl | rfl | rfl | rfl | rfl | rfl
  · dsimp only
    rcases eqS_never_true a b "id" with h | h
    · left
      rw [show same_idS a b = Except.ok false from h]
      rfl
    · right
      rw [show same_idS a b = Except.error PyErr.typeError from h]
      rfl
  · dsimp only
    rcases eqS_never_true a b "id" with h | h
    · left
      rw [show same_idS a b = Except.ok false from h]
      rfl
    · right
      rw [show same_idS a b = Except.error PyErr.typeError from h]
      rfl
  · dsimp only
    rcases eqS_never_true a b "id" with h | h
    · left
      rw [show same_idS a b = Except.ok false from h]
      rfl
    · right
      rw [show same_idS a b = Except.error PyErr.typeError from h]
      rfl
  · dsimp only
    rcases eqS_never_true a b "id" with h | h
    · left
      rw [show same_idS a b = Except.ok false from h]
      rfl
    · right
      rw [show same_idS a b = Except.error PyErr.typeError from h]
      rfl
  · dsimp only
    rcases eqS_never_true a b "name" with h | h
    · left
      rw [show same_nameS a b = Except.ok false from h]
      rfl
    · right
      rw [show same_nameS a b = Except.error PyErr.typeError from h]
      rfl
  · dsimp only
    rcases eqS_never_true a b "name" with h | h
    · left
      rw [show same_nameS a b = Except.ok false from h]
      rfl
    · right
      rw [show same_nameS a b = Except.error PyErr.typeError from h]
      rfl

/-- The tests loop leaves the state unchanged and never produces a match:
it returns `(None, st)` after some test raised `False` all the way down, or
raises `TypeError`, or — when the tests list is empty — returns the
incoming `match` value. -/
lemma runTests3_result (st : CmpState3) (a b : String) :
    ∀ (ts : List LayerTest3),
      (∀ t ∈ ts, t.fn st a b = Except.ok Option.none ∨
        t.fn st a b = Except.error PyErr.typeError) →
      ∀ m, runTests3 st a b ts m = Except.ok (Option.none, st) ∨
        runTests3 st a b ts m = Except.error (PyErr.typeError, st) ∨
        runTests3 st a b ts m = Except.ok (m, st) := by
  intro ts
  induction ts with
  | nil =>
    intro _ m
    right; right
    rfl
  | cons t ts ih =>
    intro hts m
    rcases hts t (List.mem_cons_self t ts) with h | h
    · rcases ih (fun t2 ht2 => hts t2 (List.mem_cons_of_mem t ht2)) Option.none with h2 | h2 | h2
      · left
        simp only [runTests3, h]
        exact h2
      · right; left
        simp only [runTests3, h]
        exact h2
      · left
        simp only [runTests3, h]
        exact h2
    · right; left
      simp only [runTests3, h]

/-- The candidate loop over `a_layers` likewise never matches and never
touches the state. -/
lemma runALoop3_result (b : String) :
    ∀ (aL : List String) (st : CmpState3) (m : Option String),
      runALoop3 b aL m st = Except.ok (Option.none, st) ∨
      runALoop3 b aL m st = Except.error (PyErr.typeError, st) ∨
      runALoop3 b aL m st = Except.ok (m, st) := by
  intro aL
  induction aL with
  | nil =>
    intro st m
    right; right
    rfl
  | cons a rest ih =>
    intro st m
    have hts : ∀ t ∈ layerTests3, t.fn st a b = Except.ok Option.none ∨
        t.fn st a b = Except.error PyErr.typeError :=
      fun t ht => layerTests3_fn_never_matches t ht st a b
    rcases runTests3_result st a b layerTests3 hts m with h | h | h
    · rcases ih st Option.none with h2 | h2 | h2
      · left
        simp only [runALoop3, h]
        exact h2
      · right; left
        simp only [runALoop3, h]
        exact h2
      · left
        simp only [runALoop3, h]
        exact h2
    · right; left
      simp only [runALoop3, h]
    · rcases ih st m with h2 | h2 | h2
      · left
        simp only [runALoop3, h]
        exact h2
      · right; left
        simp only [runALoop3, h]
        exact h2
      · right; right
        simp only [runALoop3, h]
        exact h2

/-- The `b_layers` loop either has nothing to do or raises `TypeError` on
the very first `is_resolved_b` lookup, leaving the state untouched. -/
lemma runBLoop3_result (aL bL : List String) (st : CmpState3) :
    (bL = [] ∧ runBLoop3 aL bL st = Except.ok st) ∨
    runBLoop3 aL bL st = Except.error (PyErr.typeError, st) := by
  cases bL with
  | nil =>
    left
    exact ⟨rfl, rfl⟩
  | cons b rest =>
    right
    rcases runALoop3_result b aL st Option.none with h | h | h
    · simp only [runBLoop3, h, is_resolvedS, strIndexByStr, exceptBindErr]
    · simp only [runBLoop3, h]
    · simp only [runBLoop3, h, is_resolvedS, strIndexByStr, exceptBindErr]

/-- The removed-layers loop likewise raises `TypeError` at its first
element (or has nothing to do). -/
lemma runRemoved3_result (aL : List String) (st : CmpState3) :
    (aL = [] ∧ runRemoved3 aL st = Except.ok st) ∨
    runRemoved3 aL st = Except.error (PyErr.typeError, st) := by
  cases aL with
  | nil =>
    left
    exact ⟨rfl, rfl⟩
  | cons a rest =>
    right
    simp only [runRemoved3, is_resolvedS, strIndexByStr, exceptBindErr]

/-- Whenever both pools flatten successfully, `compare_layers` returns the
empty partition — nothing is ever added, updated or removed. -/
lemma compare_layers3_ok (da db : Document3) (ka kb : List String)
    (ha : flattenFirstMapKeys3 da = Except.ok ka)
    (hb : flattenFirstMapKeys3 db = Except.ok kb) :
    compare_layers3 da db = Except.ok ⟨[], [], []⟩ := by
  unfold compare_layers3
  rw [ha]
  dsimp only
  rw [hb]
  dsimp only
  rcases runBLoop3_result ka kb ⟨[], [], [], [], []⟩ with ⟨_, h⟩ | h
  · rw [h]
    dsimp only
    rcases runRemoved3_result ka ⟨[], [], [], [], []⟩ with ⟨_, h2⟩ | h2
    · rw [h2]
    · rw [h2]
  · rw [h]

/-- The flattening fold succeeds on a layer list without `None` entries. -/
lemma flattenFold_ok :
    ∀ (ls : List (Option LayerRecord)) (acc : List String), Option.none ∉ ls →
      ∃ ks, ls.foldlM (fun acc2 sublist =>
        match sublist with
        | Option.none => Except.error PyErr.typeError
        | some record => Except.ok (acc2 ++ record.map (fun kv => kv.1))) acc =
          Except.ok ks := by
  intro ls
  induction ls with
  | nil =>
    intro acc _
    exact ⟨acc, rfl⟩
  | cons o rest ih =>
    intro acc h
    cases o with
    | none => exact absurd (List.mem_cons_self _ _) h
    | some record =>
      have h2 : Option.none ∉ rest := fun hmem => h (List.mem_cons_of_mem _ hmem)
      rcases ih (acc ++ record.map (fun kv => kv.1)) h2 with ⟨ks, hks⟩
      refine ⟨ks, ?_⟩
      rw [List.foldlM_cons]
      exact hks

lemma dfPairEntries_self (m : MapFrame3) : dfPairEntries m m = [] := by
  simp [dfPairEntries]

lemma cdfLoop3_self (full : List MapFrame3) :
    ∀ (tail : List MapFrame3) (i : Nat) (acc : List DFDiffEntry),
      full.drop i = tail → cdfLoop3 full tail i acc = acc := by
  intro tail
  induction tail with
  | nil =>
    intro i acc _
    rfl
  | cons a rest ih =>
    intro i acc hdrop
    have hget : full[i]? = some a := by
      have h0 : (full.drop i)[0]? = some a := by
        rw [hdrop]
        simp
      rw [List.getElem?_drop] at h0
      simpa using h0
    have hdrop2 : full.drop (i + 1) = rest := by
      rw [← List.tail_drop, hdrop]
      rfl
    simp only [cdfLoop3, hget, dfPairEntries_self, List.append_nil]
    exact ih (i + 1) acc hdrop2

/-- Source: `compare_data_frames` on a self-comparison of a document with at least
one map yields no entries. -/
lemma compare_data_frames3_self (d : Document3) (h : d.maps ≠ []) :
    compare_data_frames3 d d = [] := by
  have hne : d.maps.length ≠ 0 := by
    simpa [List.length_eq_zero] using h
  have h1 : (d.maps.length == 0 || d.maps.length != d.maps.length) = false := by
    simp [hne]
  show cdfLoop3 d.maps d.maps 0
      (if (d.maps.length == 0 || d.maps.length != d.maps.length) = true then
        [⟨map_count_changed, CmpVal.int (Int.ofNat d.maps.length),
          CmpVal.int (Int.ofNat d.maps.length)⟩]
      else []) = []
  rw [h1]
  simp only [Bool.false_eq_true, if_false]
  exact cdfLoop3_self d.maps d.maps 0 [] rfl

/-! ## Claim C1 -/

/-- C1 (counterexample): for the document snapshot with zero maps, compared
against itself, the data-frame phase deliberately emits a
`map_count_changed` entry (`was = now = 0`), because the source tests
`map_b_maps_len == 0 or ...`; and `compare` does not even return a result:
the layer phase's flattening raises `IndexError` on `a[0]` before the
result accumulators are assigned, and the `finally` block's reference to
them raises `UnboundLocalError`, which propagates.  So `compare(S, S)` is
not the all-empty result claimed. -/
theorem c1_counterexample :
    compare_data_frames3 ⟨[]⟩ ⟨[]⟩ = [⟨map_count_changed, CmpVal.int 0, CmpVal.int 0⟩] ∧
    compare3 ⟨[]⟩ ⟨[]⟩ = Except.error PyErr.unboundLocalError :=
  ⟨rfl, rfl⟩

/-- C1 (amended): for every document snapshot `S` with at least one map and
no group-layer placeholder (`None`) in its first map's layer list,
`compare(S, S)` returns `dataFrames = []` and
`layers.added = layers.updated = layers.removed = []`.  (A zero-map
snapshot instead yields a `map_count_changed` entry and propagates
`UnboundLocalError`; a `None` entry in the first map's layer list also
propagates `UnboundLocalError`.) -/
theorem c1_compare_self_empty (S : Document3)
    (h : ∃ m ms, S.maps = m :: ms ∧ Option.none ∉ m.layers) :
    compare3 S S = Except.ok ⟨[], ⟨[], [], []⟩⟩ := by
  obtain ⟨m, ms, hm, hnone⟩ := h
  have hdf : compare_data_frames3 S S = [] := by
    refine compare_data_frames3_self S ?_
    rw [hm]
    exact List.cons_ne_nil m ms
  have hfl : ∃ ks, flattenFirstMapKeys3 S = Except.ok ks := by
    rcases flattenFold_ok m.layers [] hnone with ⟨ks, hks⟩
    refine ⟨ks, ?_⟩
    unfold flattenFirstMapKeys3
    rw [hm]
    exact hks
  rcases hfl with ⟨ks, hks⟩
  have hcl := compare_layers3_ok S S ks ks hks hks
  unfold compare3
  dsimp only
  rw [hcl]
  dsimp only
  rw [hdf]

/-- C1 (witness): the amended theorem applied to a concrete one-map,
one-layer snapshot. -/
theorem c1_witness :
    compare3 ⟨[⟨srWGS84, [some [("name", LVal.str "A")]]⟩]⟩
        ⟨[⟨srWGS84, [some [("name", LVal.str "A")]]⟩]⟩ =
      Except.ok ⟨[], ⟨[], [], []⟩⟩ :=
  c1_compare_self_empty _ ⟨_, _, rfl, by decide⟩

/-! ## Claim C6 -/

/-- A layer whose vendor update succeeds and leaves it unbroken. -/
def layerL0 : PLayer := ⟨"L0", false, false, []⟩

/-- A table view whose vendor update succeeds and leaves it unbroken. -/
def tableT0 : PLayer := ⟨"T0", false, false, []⟩

def mapM0 : PMap := ⟨[layerL0], [tableT0]⟩

/-- A replacement dict. -/
def srcS0 : LayerSource := ⟨some 7, 42⟩

/-- A replacement spec whose layer list matches but whose table list is
shorter than the map's table list. -/
def mdsTableShort : MapDataSources := ⟨true, true, some [some srcS0], some []⟩

/-- C6 (counterexample): a replacement spec whose `tableViews` list length
differs from the map's table list raises the fatal
`ChangeDataSourcesError`, but only *after* the map's layer loop has run:
in the carried document state the layer `L0` has already had its
connection updated (`updates = [layerDict 42]`), so the error is not
raised "before any layer of that map is mutated" as the claim states. -/
theorem c6_counterexample :
    change_data_sources [mapM0] [mdsTableShort] =
      Except.error (CDSFatal.tableCountMismatch,
        [⟨[⟨"L0", false, false, [UpdateArg.layerDict 42]⟩], [tableT0]⟩]) :=
  rfl

/-- C6 (amended): a replacement list whose length differs from the
corresponding map's *layer* list (or a `None` layers value) raises the
fatal error with that map entirely unmutated; a length mismatch on the
*table* list raises the fatal error before any table of that map is
mutated, but only after the map's layers have already been processed. -/
theorem c6_length_mismatch_is_fatal :
    (∀ (m : PMap) (mds : MapDataSources) (errs : List MapLayerErr) (m2 : PMap),
        processMapPair m mds errs = Except.error (CDSFatal.layerCountMismatch, m2) →
          m2 = m) ∧
    (∀ (m : PMap) (mds : MapDataSources) (errs : List MapLayerErr) (m2 : PMap),
        processMapPair m mds errs = Except.error (CDSFatal.tableCountMismatch, m2) →
          m2.tables = m.tables) := by
  constructor
  · intro m mds errs m2 h
    unfold processMapPair at h
    split at h
    · simp at h
    · cases hls : mds.layers with
      | none =>
        rw [hls] at h
        dsimp only at h
        have h3 := congrArg Prod.snd (Except.error.inj h)
        exact h3.symm
      | some ls =>
        rw [hls] at h
        dsimp only at h
        split at h
        · have h3 := congrArg Prod.snd (Except.error.inj h)
          exact h3.symm
        · cases hts : mds.tableViews with
          | none =>
            rw [hts] at h
            dsimp only at h
            simp at h
          | some ts =>
            rw [hts] at h
            dsimp only at h
            split at h
            · simp at h
            · simp at h
  · intro m mds errs m2 h
    unfold processMapPair at h
    split at h
    · simp at h
    · cases hls : mds.layers with
      | none =>
        rw [hls] at h
        dsimp only at h
        simp at h
      | some ls =>
        rw [hls] at h
        dsimp only at h
        split at h
        · simp at h
        · cases hts : mds.tableViews with
          | none =>
            rw [hts] at h
            dsimp only at h
            simp at h
          | some ts =>
            rw [hts] at h
            dsimp only at h
            split at h
            · have h3 := congrArg Prod.snd (Except.error.inj h)
              dsimp only at h3
              rw [← h3]
            · simp at h

/-- C6 (witness): the amended theorem applied to a concrete map and a
replacement spec with an empty layer-source list. -/
theorem c6_witness : (⟨[layerL0], [tableT0]⟩ : PMap) = mapM0 :=
  c6_length_mismatch_is_fatal.1 mapM0 ⟨true, true, some [], some []⟩ []
    ⟨[layerL0], [tableT0]⟩ rfl

/-! ## Claim C7 -/

/-- What one loop iteration does to one (item, source) pair: a `None`
source is skipped, otherwise `_change_data_source` runs. -/
def applyOneSource (argOf : LayerSource → UpdateArg) (l : PLayer) (s : Option LayerSource) :
    PLayer × Option MapLayerErr :=
  match s with
  | Option.none => (l, Option.none)
  | some src => change_data_source_one l (argOf src)

/-- The items after the loop: every item updated independently of any
other item's failure. -/
def expectedItems (argOf : LayerSource → UpdateArg) (ls : List PLayer)
    (ss : List (Option LayerSource)) : List PLayer :=
  (ls.zip ss).map (fun p => (applyOneSource argOf p.1 p.2).1)

/-- The per-item failures of the loop, in item order. -/
def collectedItemErrs (argOf : LayerSource → UpdateArg) (ls : List PLayer)
    (ss : List (Option LayerSource)) : List MapLayerErr :=
  (ls.zip ss).filterMap (fun p => (applyOneSource argOf p.1 p.2).2)

lemma processItems_eq (argOf : LayerSource → UpdateArg) :
    ∀ (ls : List PLayer) (ss : List (Option LayerSource)) (errs : List MapLayerErr),
      ls.length = ss.length →
      processItems argOf ls ss errs =
        (expectedItems argOf ls ss, errs ++ collectedItemErrs argOf ls ss) := by
  intro ls
  induction ls with
  | nil =>
    intro ss errs hlen
    cases ss with
    | cons s ss2 => simp at hlen
    | nil => simp [processItems, expectedItems, collectedItemErrs]
  | cons l ls2 ih =>
    intro ss errs hlen
    cases ss with
    | nil => simp at hlen
    | cons s ss2 =>
      have hlen2 : ls2.length = ss2.length := by simpa using hlen
      cases s with
      | none =>
        simp only [processItems]
        rw [ih ss2 errs hlen2]
        simp [expectedItems, collectedItemErrs, applyOneSource]
      | some src =>
        simp only [processItems]
        cases hcd : (change_data_source_one l (argOf src)).2 with
        | none =>
          rw [ih ss2 errs hlen2]
          simp [expectedItems, collectedItemErrs, applyOneSource, hcd]
        | some e =>
          rw [ih ss2 (errs ++ [e]) hlen2]
          simp [expectedItems, collectedItemErrs, applyOneSource, hcd, List.append_assoc]

/-- The well-formedness the fatal preconditions of `change_data_sources`
test for one (map, data-sources) pair. -/
def wellFormedPairB (m : PMap) (mds : MapDataSources) : Bool :=
  mds.hasLayersKey && mds.hasTableViewsKey &&
    (match mds.layers with
     | some ls => ls.length == m.layers.length
     | Option.none => false) &&
    (match mds.tableViews with
     | some ts => ts.length == m.tables.length
     | Option.none => false)

/-- The map after both loops ran. -/
def expectedMapResult (m : PMap) (mds : MapDataSources) : PMap :=
  { m with
    layers := expectedItems layerArgOf m.layers (mds.layers.getD [])
    tables := expectedItems tableArgOf m.tables (mds.tableViews.getD []) }

/-- The failures both loops of one map collect, in order. -/
def mapCollectedErrs (m : PMap) (mds : MapDataSources) : List MapLayerErr :=
  collectedItemErrs layerArgOf m.layers (mds.layers.getD []) ++
    collectedItemErrs tableArgOf m.tables (mds.tableViews.getD [])

lemma processMapPair_eq (m : PMap) (mds : MapDataSources) (errs : List MapLayerErr)
    (h : wellFormedPairB m mds = true) :
    processMapPair m mds errs =
      Except.ok (expectedMapResult m mds, errs ++ mapCollectedErrs m mds) := by
  simp only [wellFormedPairB, Bool.and_eq_true] at h
  obtain ⟨⟨⟨hk1, hk2⟩, hl⟩, ht⟩ := h
  unfold processMapPair
  rw [hk1, hk2]
  simp only [Bool.not_true, Bool.or_self, Bool.false_eq_true, if_false]
  cases hls : mds.layers with
  | none =>
    rw [hls] at hl
    simp at hl
  | some ls =>
    rw [hls] at hl
    have hleq : ls.length = m.layers.length := by simpa using hl
    have hne : (m.layers.length != ls.length) = false := by simp [hleq]
    dsimp only
    rw [hne]
    simp only [Bool.false_eq_true, if_false]
    rw [processItems_eq layerArgOf m.layers ls errs hleq.symm]
    cases hts : mds.tableViews with
    | none =>
      rw [hts] at ht
      simp at ht
    | some ts =>
      rw [hts] at ht
      have hteq : ts.length = m.tables.length := by simpa using ht
      have hne2 : (m.tables.length != ts.length) = false := by simp [hteq]
      dsimp only
      rw [hne2]
      simp only [Bool.false_eq_true, if_false]
      rw [processItems_eq tableArgOf m.tables ts _ hteq.symm]
      simp [expectedMapResult, mapCollectedErrs, hls, hts, List.append_assoc]

/-- The document after `change_data_sources` ran all maps. -/
def expectedDoc (maps : List PMap) (ds : List MapDataSources) : List PMap :=
  (maps.zip ds).map (fun p => expectedMapResult p.1 p.2)

/-- All per-item failures of the whole run, in order. -/
def collectedDocErrs (maps : List PMap) (ds : List MapDataSources) : List MapLayerErr :=
  ((maps.zip ds).map (fun p => mapCollectedErrs p.1 p.2)).flatten

lemma cds_go_eq :
    ∀ (maps : List PMap) (ds : List MapDataSources) (done : List PMap)
      (errs : List MapLayerErr),
      maps.length = ds.length →
      ((maps.zip ds).all (fun p => wellFormedPairB p.1 p.2)) = true →
      cds_go maps ds done errs =
        (if (errs ++ collectedDocErrs maps ds).isEmpty then
          Except.ok (done ++ expectedDoc maps ds)
        else
          Except.error (CDSFatal.aggregate (errs ++ collectedDocErrs maps ds),
            done ++ expectedDoc maps ds)) := by
  intro maps
  induction maps with
  | nil =>
    intro ds done errs hlen hwf
    cases ds with
    | cons d ds2 => simp at hlen
    | nil => simp [cds_go, collectedDocErrs, expectedDoc]
  | cons m maps2 ih =>
    intro ds done errs hlen hwf
    cases ds with
    | nil => simp at hlen
    | cons mds ds2 =>
      have hlen2 : maps2.length = ds2.length := by simpa using hlen
      simp only [List.zip_cons_cons, List.all_cons, Bool.and_eq_true] at hwf
      obtain ⟨hwf1, hwf2⟩ := hwf
      simp only [cds_go]
      rw [processMapPair_eq m mds errs hwf1]
      dsimp only
      rw [ih ds2 (done ++ [expectedMapResult m mds]) (errs ++ mapCollectedErrs m mds)
        hlen2 hwf2]
      simp [collectedDocErrs, expectedDoc, List.append_assoc]
      rw [List.append_assoc]

/-- C7: during bulk rewrite, per-layer (and per-table) update failures —
including a layer that reports itself broken immediately after its
connection update, modelled in `change_data_source_one` — do not stop
processing of the remaining items: for every well-formed run, the resulting
document applies each item's own update regardless of other items'
failures, every failure is collected in order, and the one aggregate
`ChangeDataSourcesError` carrying exactly that list is raised at the end
if and only if the list is non-empty. -/
theorem c7_failures_collected_and_aggregated (project : List PMap)
    (data_sources : List MapDataSources)
    (hlen : project.length = data_sources.length)
    (hwf : ((project.zip data_sources).all (fun p => wellFormedPairB p.1 p.2)) = true) :
    change_data_sources project data_sources =
      (if collectedDocErrs project data_sources = [] then
        Except.ok (expectedDoc project data_sources)
      else
        Except.error (CDSFatal.aggregate (collectedDocErrs project data_sources),
          expectedDoc project data_sources)) := by
  unfold change_data_sources
  rw [cds_go_eq project data_sources [] [] hlen hwf]
  by_cases hc : collectedDocErrs project data_sources = []
  · simp [hc]
  · simp [hc, List.isEmpty_iff]

/-- C7 (witness): the theorem applied to a map with a layer that becomes
broken right after its update followed by a layer that updates cleanly:
both are updated, the single failure is collected, and the aggregate error
carries it. -/
theorem c7_witness :
    change_data_sources [⟨[⟨"B", false, true, []⟩, ⟨"G", false, false, []⟩], []⟩]
        [⟨true, true, some [some ⟨Option.none, 1⟩, some ⟨Option.none, 2⟩], some []⟩] =
      Except.error (CDSFatal.aggregate [MapLayerErr.nowBroken "B"],
        [⟨[⟨"B", false, true, [UpdateArg.layerDict 1]⟩,
           ⟨"G", false, false, [UpdateArg.layerDict 2]⟩], []⟩]) := by
  rw [c7_failures_collected_and_aggregated _ _ rfl (by decide)]
  rfl
